import Mathlib

/-!
Verification of the dash-windtopo interactive wind viewer (src/app.py).

The app is a single-file Dash application.  We embed its pure computational
core as Lean functions:

* the frequency aggregation (calc_freq / freq_df, app.py lines 28-37),
* the left join onto the location table and the HIGH/LOW split
  (plot_df / high_freq_df / low_freq_df, lines 39-41),
* the map construction and the viewport persistence callbacks
  (create_map / update_map_figure / save_map_state, lines 57-141),
* the selection callback (update_station_list, lines 150-158),
* the per-station time-series projection (update_timeseries, lines 166-210).

Modelling conventions:

* pandas floats become Option Rat; a missing / NaN cell is none, and a
  comparison NaN >= 25 is false exactly as in pandas;
* Python dicts that may lack keys become structures of Option fields;
* a falsy argument (None or an empty dict / list) becomes none of an Option;
* a Python expression that would raise (e.g. indexing an empty points list)
  makes the embedded function return none;
* pandas string comparison is lexicographic on code points; we embed it as
  the structural function strLe on the underlying character lists;
* pandas sort_values uses an unstable quicksort by default; the embedding
  uses an insertion sort, which produces one of the permitted sorted
  permutations (claims about tie order are therefore outside the embedding).
-/

namespace Windtopo

/-- Lexicographic code-point comparison of character lists, the order Python
and pandas use when comparing strings such as VALIDTIME values. -/
def charLe : List Char → List Char → Bool
  | [], _ => true
  | _ :: _, [] => false
  | a :: as, b :: bs =>
    if a.val < b.val then true
    else if b.val < a.val then false
    else charLe as bs

/-- String comparison used for VALIDTIME filtering and ID sorting. -/
def strLe (a b : String) : Bool := charLe a.data b.data

/-- One row of the observation table 2024_2025_MSM_WT_ARC_small.csv, with the
columns app.py touches.  Numeric cells that can be missing are Option Rat. -/
structure ObsRow where
  ID : String
  VALIDTIME : String
  ft : Int
  ObsGustSpd1h : Option ℚ
  wt_operation : Option ℚ
  arc_gust_pred : Option ℚ
deriving DecidableEq

/-- One row of the location table ARC.JP_pacific.tbl after the column
selection and rename of app.py lines 22-23. -/
structure LocRow where
  ID : String
  LATD : ℚ
  LOND : ℚ
deriving DecidableEq

/-- Does a cell meet the 25 m/s threshold?  pandas evaluates NaN >= 25 as
False, so a missing cell never counts. -/
def hitsThreshold (v : Option ℚ) : Bool :=
  match v with
  | some x => decide (25 ≤ x)
  | none => false

/-- app.py lines 28-29: (group[column] >= 25).sum() / len(group). -/
def calc_freq (group : List ObsRow) (column : ObsRow → Option ℚ) : ℚ :=
  ((group.filter (fun r => hitsThreshold (column r))).length : ℚ) / (group.length : ℚ)

/-- The rows of one groupby group: the observation rows carrying the given
station id, in table order (pandas groupby preserves within-group order). -/
def groupOf (data : List ObsRow) (id : String) : List ObsRow :=
  data.filter (fun r => decide (r.ID = id))

def insertID (id : String) : List String → List String
  | [] => [id]
  | x :: xs => if strLe id x then id :: x :: xs else x :: insertID id xs

/-- Insertion sort on station ids; models the sorted group keys produced by
pandas groupby (sort=True is the default). -/
def sortIDs : List String → List String
  | [] => []
  | x :: xs => insertID x (sortIDs xs)

/-- The distinct station ids of the observation table, sorted: the group keys
of data_df.groupby("ID"). -/
def uniqueIDs (data : List ObsRow) : List String :=
  sortIDs (data.map (fun r => r.ID)).dedup

/-- One row of freq_df (app.py lines 31-37). -/
structure FreqRec where
  ID : String
  obs_freq : ℚ
  wt_freq : ℚ
  arc_freq : ℚ
deriving DecidableEq

/-- The freq_df row the groupby-apply lambda produces for one station id. -/
def mkFreqRec (data : List ObsRow) (id : String) : FreqRec :=
  { ID := id
    obs_freq := calc_freq (groupOf data id) ObsRow.ObsGustSpd1h
    wt_freq := calc_freq (groupOf data id) ObsRow.wt_operation
    arc_freq := calc_freq (groupOf data id) ObsRow.arc_gust_pred }

/-- app.py lines 31-37: data_df.groupby("ID").apply(...).reset_index(). -/
def freq_df (data : List ObsRow) : List FreqRec :=
  (uniqueIDs data).map (mkFreqRec data)

/-- The frequency record freq_df holds for a station id, if any. -/
def freqRecOf (data : List ObsRow) (id : String) : Option FreqRec :=
  (freq_df data).find? (fun f => decide (f.ID = id))

/-- One row of plot_df: a frequency record with the (possibly missing)
coordinates the left join attached. -/
structure PlotRow where
  ID : String
  obs_freq : ℚ
  wt_freq : ℚ
  arc_freq : ℚ
  LATD : Option ℚ
  LOND : Option ℚ
deriving DecidableEq

/-- app.py line 39: freq_df.merge(loc_df, on="ID", how="left").  Every
frequency record is kept; a record without a matching location row gets NaN
(none) coordinates, and a record with several matches is repeated once per
match, as pandas merge does. -/
def plot_df (freqs : List FreqRec) (locs : List LocRow) : List PlotRow :=
  freqs.flatMap (fun f =>
    match locs.filter (fun l => decide (l.ID = f.ID)) with
    | [] => [⟨f.ID, f.obs_freq, f.wt_freq, f.arc_freq, none, none⟩]
    | ms => ms.map (fun l => ⟨f.ID, f.obs_freq, f.wt_freq, f.arc_freq, some l.LATD, some l.LOND⟩))

/-- app.py line 40: plot_df[plot_df["obs_freq"] >= 0.004]. -/
def high_freq_df (rows : List PlotRow) : List PlotRow :=
  rows.filter (fun r => decide ((4 : ℚ)/1000 ≤ r.obs_freq))

/-- app.py line 41: plot_df[plot_df["obs_freq"] < 0.004]. -/
def low_freq_df (rows : List PlotRow) : List PlotRow :=
  rows.filter (fun r => decide (r.obs_freq < (4 : ℚ)/1000))

/-- A map center, the {"lat": .., "lon": ..} dict of app.py. -/
structure Center where
  lat : ℚ
  lon : ℚ
deriving DecidableEq

/-- Arithmetic mean, pandas Series.mean(). -/
def mean (xs : List ℚ) : ℚ := xs.sum / (xs.length : ℚ)

/-- The default map center of app.py lines 74 and 136-139:
{"lat": loc_df["LATD"].mean(), "lon": loc_df["LOND"].mean()}. -/
def default_center (locs : List LocRow) : Center :=
  ⟨mean (locs.map LocRow.LATD), mean (locs.map LocRow.LOND)⟩

/-- The content of the map-state store: the dict save_map_state returns.  The
code reads it defensively with .get, so each key is an Option field. -/
structure MapStateData where
  zoom? : Option ℚ
  center? : Option Center
deriving DecidableEq

/-- A truthy relayoutData dict: it carries zero or more of the keys
mapbox.zoom and mapbox.center (a relayout event for another property, such as
dragmode, carries neither).  A falsy relayoutData is modelled as none of
Option RelayoutData at the call sites. -/
structure RelayoutData where
  zoom? : Option ℚ
  center? : Option Center
deriving DecidableEq

/-- app.py lines 127-141, the save_map_state callback: on a falsy event keep
the current store; otherwise take each field from the event if present, else
from the current store, else from the computed default (zoom 7, mean center). -/
def save_map_state (locs : List LocRow) (relayout_data : Option RelayoutData)
    (current_state : Option MapStateData) : Option MapStateData :=
  match relayout_data with
  | none => current_state
  | some rd =>
    let cur := current_state.getD ⟨none, none⟩
    let zoom := rd.zoom?.getD (cur.zoom?.getD 7)
    let center := rd.center?.getD (cur.center?.getD (default_center locs))
    some ⟨some zoom, some center⟩

/-- One Scattermapbox trace of the map figure (app.py lines 59-69). -/
structure Trace where
  lat : List (Option ℚ)
  lon : List (Option ℚ)
  color : String
  opacities : List ℚ
  text : List String
  name : String
deriving DecidableEq

/-- The parts of the map figure the callbacks manipulate: the two marker
traces and the mapbox viewport of the layout. -/
structure MapFigure where
  traces : List Trace
  zoom : ℚ
  center : Center
deriving DecidableEq

/-- The trace app.py lines 60-69 add for one of the two frequency groups. -/
def mkTrace (selected_ids : List String) (df : List PlotRow) (color nm : String) : Trace :=
  { lat := df.map PlotRow.LATD
    lon := df.map PlotRow.LOND
    color := color
    opacities := df.map (fun r => if r.ID ∈ selected_ids then (1 : ℚ) else (4 : ℚ)/10)
    text := df.map PlotRow.ID
    name := nm }

/-- app.py lines 57-79, create_map: low-frequency trace then high-frequency
trace, layout zoom 7 and the mean center. -/
def create_map (locs : List LocRow) (plotRows : List PlotRow)
    (selected_ids : List String) : MapFigure :=
  { traces := [mkTrace selected_ids (low_freq_df plotRows) "blue" "Low Frequency",
               mkTrace selected_ids (high_freq_df plotRows) "red" "High Frequency"]
    zoom := 7
    center := default_center locs }

/-- app.py lines 113-120, the update_map_figure callback: rebuild the figure
from the selection and, when the stored map state has both keys, overwrite the
layout viewport with the stored one.  The store itself is only read. -/
def update_map_figure (locs : List LocRow) (plotRows : List PlotRow)
    (selected_ids : List String) (map_state : Option MapStateData) : MapFigure :=
  let map_fig := create_map locs plotRows selected_ids
  match map_state with
  | some st =>
    match st.center?, st.zoom? with
    | some c, some z => { map_fig with center := c, zoom := z }
    | _, _ => map_fig
  | none => map_fig

/-- A truthy clickData dict of app.py line 153-155: either it lacks the
points key, or it carries the list of the texts of its points. -/
inductive ClickData where
  | noPoints
  | points (texts : List String)
deriving DecidableEq

/-- app.py lines 150-158, the update_station_list callback.  The first
argument is whether ctx.triggered_id is the reset button.  Returns none when
the Python code would raise (clickData has an empty points list, so that
indexing its first point is an IndexError); Dash then keeps the old store. -/
def update_station_list (triggered_reset : Bool) (clickData : Option ClickData)
    (selected_ids : List String) : Option (List String) :=
  if triggered_reset then some []
  else
    match clickData with
    | none => some selected_ids
    | some ClickData.noPoints => some selected_ids
    | some (ClickData.points []) => none
    | some (ClickData.points (c :: _)) =>
      some (if c ∈ selected_ids then selected_ids else selected_ids ++ [c])

/-- Apply a sequence of marker clicks (one station id per click event) to a
selection through update_station_list, as successive callback invocations. -/
def applyClickSeq (clicks : List String) (sel : List String) : List String :=
  match clicks with
  | [] => sel
  | c :: rest =>
    match update_station_list false (some (ClickData.points [c])) sel with
    | some sel2 => applyClickSeq rest sel2
    | none => sel

/-- app.py lines 44-50, the case registry. -/
def cases : List (String × String × String) :=
  [("Case 1: 2025/01/29 - 2025/02/02", "2025-01-29", "2025-02-02"),
   ("Case 2: 2025/02/13 - 2025/02/15", "2025-02-13", "2025-02-15"),
   ("Case 3: 2025/02/18 - 2025/02/20", "2025-02-18", "2025-02-20"),
   ("Case 4: 2025/03/13 - 2025/03/18", "2025-03-13", "2025-03-18"),
   ("Case 5: 2025/03/25 - 2025/03/28", "2025-03-25", "2025-03-28")]

/-- cases[selected_case] as an Option lookup. -/
def lookupCase (label : String) : Option (String × String) :=
  (cases.find? (fun kv => decide (kv.1 = label))).map (fun kv => kv.2)

def insertByTime (r : ObsRow) : List ObsRow → List ObsRow
  | [] => [r]
  | x :: xs => if strLe r.VALIDTIME x.VALIDTIME then r :: x :: xs else x :: insertByTime r xs

/-- Sorting by VALIDTIME ascending, app.py line 177.  The source uses pandas
sort_values with its default unstable quicksort; this insertion sort realises
one sorted permutation of the input (the source fixes no tie order). -/
def sort_values : List ObsRow → List ObsRow
  | [] => []
  | r :: rs => insertByTime r (sort_values rs)

/-- app.py lines 174-177: the rows underlying the chart of one station — the
three successive filters (station id, date window, forecast hour in [0,23])
followed by the sort by VALIDTIME. -/
def site_df (data : List ObsRow) (point_id start_date end_date : String) : List ObsRow :=
  sort_values
    ((((data.filter (fun r => decide (r.ID = point_id))).filter
        (fun r => strLe start_date r.VALIDTIME && strLe r.VALIDTIME end_date)).filter
        (fun r => decide (0 ≤ r.ft) && decide (r.ft ≤ 23))))

/-- One chart of the time-series column: either the no-data placeholder of
app.py lines 180-183 or a chart over the filtered, sorted rows. -/
inductive Chart where
  | placeholder (title : String)
  | series (title : String) (rows : List ObsRow)
deriving DecidableEq

/-- The chart app.py lines 173-208 build for one selected station. -/
def mkChart (data : List ObsRow) (point_id selected_case start_date end_date : String) : Chart :=
  let rows := site_df data point_id start_date end_date
  if rows.isEmpty then
    Chart.placeholder ("No data for " ++ point_id ++ " during " ++ selected_case)
  else
    Chart.series point_id rows

/-- The rendered right-hand column: the select-a-station prompt or the list
of charts. -/
inductive TimeseriesView where
  | prompt
  | charts (cs : List Chart)
deriving DecidableEq

/-- app.py lines 166-210, the update_timeseries callback.  none models the
KeyError a label outside the registry would raise. -/
def update_timeseries (data : List ObsRow) (station_ids : List String)
    (selected_case : String) : Option TimeseriesView :=
  if station_ids.isEmpty then some TimeseriesView.prompt
  else
    match lookupCase selected_case with
    | none => none
    | some (start_date, end_date) =>
      some (TimeseriesView.charts
        (station_ids.map (fun pid => mkChart data pid selected_case start_date end_date)))

/-- The three persistent stores of the app: the selected-station-ids store,
the map-state store, and the case-selector value. -/
structure AppState where
  selected_ids : List String
  map_state : Option MapStateData
  case_value : String
deriving DecidableEq

/-- One external interaction event, as Dash delivers it to the callbacks. -/
inductive Event where
  | markerClick (cd : ClickData)
  | resetClick (cd : Option ClickData)
  | caseChange (label : String)
  | viewportRelayout (rd : Option RelayoutData)
deriving DecidableEq

/-- One tick of the app: the single store each callback outputs, updated by
that callback; every other store is untouched.  A callback that raises leaves
its store unchanged (Dash keeps the previous value). -/
def stepEvent (locs : List LocRow) (e : Event) (s : AppState) : AppState :=
  match e with
  | Event.markerClick cd =>
    { s with selected_ids :=
        (update_station_list false (some cd) s.selected_ids).getD s.selected_ids }
  | Event.resetClick cd =>
    { s with selected_ids :=
        (update_station_list true cd s.selected_ids).getD s.selected_ids }
  | Event.caseChange label => { s with case_value := label }
  | Event.viewportRelayout rd =>
    { s with map_state := save_map_state locs rd s.map_state }

/-- Modelled from the spec (section 4.3): the spec describes the computed
default center as the geometric mean of the station coordinates.  A value g
is the geometric mean of xs when it is nonnegative and its length-th power is
the product of xs. -/
def isGeometricMean (xs : List ℚ) (g : ℚ) : Prop :=
  0 ≤ g ∧ g ^ xs.length = xs.prod

/-- Ten observation rows for station S, of which exactly three have an
observed gust at or above 25; wt_operation never reaches 25 and
arc_gust_pred always does. -/
def data10 : List ObsRow :=
  [⟨"S", "2025-02-13T00", 0, some 30, some 0, some 30⟩,
   ⟨"S", "2025-02-13T01", 1, some 26, some 1, some 30⟩,
   ⟨"S", "2025-02-13T02", 2, some 25, some 2, some 30⟩,
   ⟨"S", "2025-02-13T03", 3, some 24, some 3, some 30⟩,
   ⟨"S", "2025-02-13T04", 4, some 20, some 4, some 30⟩,
   ⟨"S", "2025-02-13T05", 5, some 10, some 5, some 30⟩,
   ⟨"S", "2025-02-13T06", 6, some 5, some 6, some 30⟩,
   ⟨"S", "2025-02-13T07", 7, some 0, some 7, some 30⟩,
   ⟨"S", "2025-02-13T08", 8, some 12, some 8, some 30⟩,
   ⟨"S", "2025-02-13T09", 9, some 13, some 9, some 30⟩]

/-- Two observation rows for station A: one valid gust of 30, one missing
(NaN) gust.  The spec predicts obs_freq 1 here; the code computes 1/2. -/
def dataC8 : List ObsRow :=
  [⟨"A", "2025-02-13T00", 0, some 30, some 0, some 0⟩,
   ⟨"A", "2025-02-13T01", 1, none, some 0, some 0⟩]

/-- A malformed row (missing gust) for station A, used as the appended row in
the C8 witness. -/
def badRowC8 : ObsRow := ⟨"A", "2025-02-13T02", 2, none, some 0, some 0⟩

/-- A two-row data table for the C8 witness, stations A and B. -/
def dataC8w : List ObsRow :=
  [⟨"A", "2025-02-13T00", 0, some 30, some 0, some 0⟩,
   ⟨"B", "2025-02-13T00", 0, some 10, some 0, some 0⟩]

/-- A frequency record for station X with obs_freq 1/2, orphaned when the
location table has no row for X. -/
def freqsC3 : List FreqRec := [⟨"X", 1/2, 0, 0⟩]

/-- Two stations whose latitudes are 1 and 4 and longitudes 9 and 16: the
arithmetic means are 5/2 and 25/2, while the geometric means would be 2 and
12. -/
def locsC7 : List LocRow := [⟨"A", 1, 9⟩, ⟨"B", 4, 16⟩]

/-! ## Helper lemmas -/

theorem update_station_list_click (c : String) (sel : List String) :
    update_station_list false (some (ClickData.points [c])) sel
      = some (if c ∈ sel then sel else sel ++ [c]) := rfl

theorem applyClickSeq_cons (c : String) (cs sel : List String) :
    applyClickSeq (c :: cs) sel
      = applyClickSeq cs (if c ∈ sel then sel else sel ++ [c]) := rfl

theorem applyClickSeq_nodup (cs : List String) :
    ∀ sel : List String, sel.Nodup → (applyClickSeq cs sel).Nodup := by
  induction cs with
  | nil => intro sel h; exact h
  | cons c rest ih =>
    intro sel h
    rw [applyClickSeq_cons]
    by_cases hc : c ∈ sel
    · rw [if_pos hc]; exact ih sel h
    · rw [if_neg hc]
      refine ih _ ?_
      rw [List.nodup_append]
      refine ⟨h, List.nodup_singleton c, ?_⟩
      intro a ha hac
      rw [List.mem_singleton] at hac
      subst hac
      exact hc ha

theorem applyClickSeq_length_le (cs : List String) :
    ∀ sel : List String, sel.length ≤ (applyClickSeq cs sel).length := by
  induction cs with
  | nil => intro sel; exact le_refl _
  | cons c rest ih =>
    intro sel
    rw [applyClickSeq_cons]
    by_cases hc : c ∈ sel
    · rw [if_pos hc]; exact ih sel
    · rw [if_neg hc]
      calc sel.length ≤ (sel ++ [c]).length := by simp
        _ ≤ _ := ih _

theorem insertByTime_perm (r : ObsRow) (l : List ObsRow) :
    (insertByTime r l).Perm (r :: l) := by
  induction l with
  | nil => exact List.Perm.refl _
  | cons x xs ih =>
    by_cases h : strLe r.VALIDTIME x.VALIDTIME
    · simp [insertByTime, h]
    · simp only [insertByTime, h, if_false, Bool.false_eq_true]
      exact (ih.cons x).trans (List.Perm.swap r x xs)

theorem sort_values_perm (l : List ObsRow) : (sort_values l).Perm l := by
  induction l with
  | nil => exact List.Perm.refl _
  | cons r rs ih =>
    exact (insertByTime_perm r (sort_values rs)).trans (ih.cons r)

theorem mem_insertID {x id : String} {l : List String} :
    x ∈ insertID id l ↔ x = id ∨ x ∈ l := by
  induction l with
  | nil => simp [insertID]
  | cons y ys ih =>
    by_cases h : strLe id y
    · simp [insertID, h]
    · simp only [insertID, h, if_false, Bool.false_eq_true, List.mem_cons, ih]
      tauto

theorem mem_sortIDs {x : String} {l : List String} : x ∈ sortIDs l ↔ x ∈ l := by
  induction l with
  | nil => simp [sortIDs]
  | cons y ys ih => simp [sortIDs, mem_insertID, ih]

theorem mem_uniqueIDs {data : List ObsRow} {id : String} :
    id ∈ uniqueIDs data ↔ id ∈ data.map (fun r => r.ID) := by
  simp [uniqueIDs, mem_sortIDs, List.mem_dedup]

theorem find?_id_eq (l : List String) (id : String) :
    l.find? (fun i => decide (i = id)) = if id ∈ l then some id else none := by
  induction l with
  | nil => simp
  | cons x xs ih =>
    by_cases h : x = id
    · subst h; simp [List.find?_cons]
    · have hd : decide (x = id) = false := by simp [h]
      simp only [List.find?_cons, hd, List.mem_cons, ih]
      by_cases hm : id ∈ xs
      · simp [hm]
      · have h' : ¬ id = x := fun hEq => h hEq.symm
        simp [hm, h']

theorem freqRecOf_eq (data : List ObsRow) (id : String) :
    freqRecOf data id
      = if id ∈ data.map (fun r => r.ID) then some (mkFreqRec data id) else none := by
  unfold freqRecOf freq_df
  rw [List.find?_map]
  have hcomp : ((fun f : FreqRec => decide (f.ID = id)) ∘ mkFreqRec data)
      = (fun i => decide (i = id)) := rfl
  rw [hcomp, find?_id_eq]
  by_cases h : id ∈ uniqueIDs data
  · rw [if_pos h, if_pos (mem_uniqueIDs.mp h)]; rfl
  · rw [if_neg h, if_neg (fun hm => h (mem_uniqueIDs.mpr hm))]; rfl

theorem groupOf_append_self (data : List ObsRow) (bad : ObsRow) :
    groupOf (data ++ [bad]) bad.ID = groupOf data bad.ID ++ [bad] := by
  simp [groupOf, List.filter_append]

theorem groupOf_append_other (data : List ObsRow) (bad : ObsRow) {id : String}
    (h : id ≠ bad.ID) : groupOf (data ++ [bad]) id = groupOf data id := by
  simp [groupOf, List.filter_append, Ne.symm h]

/-! ## Claim theorems -/

/-- Claim C1: a tick triggered by a marker click, a reset click or a case
change leaves the persisted map-state store identical to its value before
the event, and the map-update handler only reads the stored viewport: when
the store holds a zoom and a center, the re-rendered figure carries exactly
that zoom and center while the store value that re-render used is the
unchanged one. -/
theorem selection_tick_preserves_viewport (locs : List LocRow) (s : AppState)
    (cd : ClickData) (cd' : Option ClickData) (label : String)
    (plotRows : List PlotRow) (z : ℚ) (c : Center) :
    (stepEvent locs (Event.markerClick cd) s).map_state = s.map_state
    ∧ (stepEvent locs (Event.resetClick cd') s).map_state = s.map_state
    ∧ (stepEvent locs (Event.caseChange label) s).map_state = s.map_state
    ∧ (update_map_figure locs plotRows s.selected_ids (some ⟨some z, some c⟩)).zoom = z
    ∧ (update_map_figure locs plotRows s.selected_ids (some ⟨some z, some c⟩)).center = c :=
  ⟨rfl, rfl, rfl, rfl, rfl⟩

/-- Claim C2: marker clicks keep the selection an ordered duplicate-free
list: the whole click sequence preserves Nodup, the length never decreases,
a click on a present id is a no-op, and a click on an absent id appends it
at the end. -/
theorem marker_clicks_keep_ordered_set (clicks sel : List String) (h : sel.Nodup) :
    (applyClickSeq clicks sel).Nodup
    ∧ sel.length ≤ (applyClickSeq clicks sel).length
    ∧ (∀ c, c ∈ sel →
        update_station_list false (some (ClickData.points [c])) sel = some sel)
    ∧ (∀ c, c ∉ sel →
        update_station_list false (some (ClickData.points [c])) sel = some (sel ++ [c])) := by
  refine ⟨applyClickSeq_nodup clicks sel h, applyClickSeq_length_le clicks sel, ?_, ?_⟩
  · intro c hc
    rw [update_station_list_click, if_pos hc]
  · intro c hc
    rw [update_station_list_click, if_neg hc]

/-- Witness for C2 at concrete inputs: the sequence A, B, A over the empty
selection, a repeated click on A over the selection [A, B], and a fresh
click on C over [A, B]. -/
theorem marker_clicks_keep_ordered_set_witness :
    ([] : List String).Nodup
    ∧ (applyClickSeq ["A", "B", "A"] []).Nodup
    ∧ ([] : List String).length ≤ (applyClickSeq ["A", "B", "A"] []).length
    ∧ update_station_list false (some (ClickData.points ["A"])) ["A", "B"] = some ["A", "B"]
    ∧ update_station_list false (some (ClickData.points ["C"])) ["A", "B"]
        = some (["A", "B"] ++ ["C"]) :=
  ⟨by decide,
   (marker_clicks_keep_ordered_set ["A", "B", "A"] [] (by decide)).1,
   (marker_clicks_keep_ordered_set ["A", "B", "A"] [] (by decide)).2.1,
   (marker_clicks_keep_ordered_set [] ["A", "B"] (by decide)).2.2.1 "A" (by decide),
   (marker_clicks_keep_ordered_set [] ["A", "B"] (by decide)).2.2.2 "C" (by decide)⟩

/-- Claim C9: when the reset button is the trigger, the selection callback
returns the empty selection whatever the prior selection and whatever click
payload arrives in the same invocation. -/
theorem reset_always_empties (clickData : Option ClickData) (sel : List String) :
    update_station_list true clickData sel = some [] := rfl

/-- Claim C10: processing any truthy viewport event yields a store value
carrying both a zoom and a center, whatever the event carried and whatever
the previous store held. -/
theorem saved_viewport_always_full (locs : List LocRow) (rd : RelayoutData)
    (current : Option MapStateData) :
    ∃ z c, save_map_state locs (some rd) current = some ⟨some z, some c⟩ :=
  ⟨_, _, rfl⟩

/-- Claim C7 (amended): fields present in the viewport event win; a missing
field is carried over from the previous state; and when the previous state
is absent the missing field is filled with the computed default — zoom 7 and
the arithmetic mean (centroid) of the station coordinates. -/
theorem viewport_event_fill_semantics (locs : List LocRow) (prev : Option MapStateData)
    (z z0 : ℚ) (c c0 : Center) :
    save_map_state locs (some ⟨some z, some c⟩) prev = some ⟨some z, some c⟩
    ∧ save_map_state locs (some ⟨none, none⟩) (some ⟨some z0, some c0⟩)
        = some ⟨some z0, some c0⟩
    ∧ save_map_state locs (some ⟨none, none⟩) none
        = some ⟨some 7, some (default_center locs)⟩
    ∧ save_map_state locs (some ⟨some z, none⟩) none
        = some ⟨some z, some (default_center locs)⟩
    ∧ save_map_state locs (some ⟨none, some c⟩) (some ⟨some z0, none⟩)
        = some ⟨some z0, some c⟩
    ∧ default_center locs = ⟨mean (locs.map LocRow.LATD), mean (locs.map LocRow.LOND)⟩ :=
  ⟨rfl, rfl, rfl, rfl, rfl, rfl⟩

/-- Counterexample for C7 as stated: with stations at latitudes 1 and 4 and
longitudes 9 and 16, the default the code computes for an event carrying
neither field with no previous state is the arithmetic mean (5/2, 25/2), and
5/2 is not the geometric mean of the latitudes 1 and 4 (that would be 2). -/
theorem default_center_not_geometric_mean :
    save_map_state locsC7 (some ⟨none, none⟩) none
      = some ⟨some 7, some ⟨5/2, 25/2⟩⟩
    ∧ ¬ isGeometricMean (locsC7.map LocRow.LATD) (5/2) := by
  constructor
  · have h : default_center locsC7 = ⟨5/2, 25/2⟩ := by
      simp only [default_center, mean, locsC7, List.map_cons, List.map_nil]
      norm_num
    have h2 : save_map_state locsC7 (some ⟨none, none⟩) none
        = some ⟨some 7, some (default_center locsC7)⟩ := rfl
    rw [h2, h]
  · simp only [isGeometricMean, locsC7, List.map_cons, List.map_nil, not_and]
    intro _
    norm_num

/-- Claim C5: the rows underlying the chart of a station are exactly the
observation rows carrying that station id whose VALIDTIME lies between the
start and end dates of the window inclusive and whose forecast hour lies between
0 and 23 inclusive — a permutation, since the final step only sorts. -/
theorem window_filter_exact (data : List ObsRow) (point_id start_date end_date : String) :
    (site_df data point_id start_date end_date).Perm
      (data.filter (fun r =>
        decide (r.ID = point_id)
        && (strLe start_date r.VALIDTIME && strLe r.VALIDTIME end_date)
        && (decide (0 ≤ r.ft) && decide (r.ft ≤ 23)))) := by
  unfold site_df
  refine (sort_values_perm _).trans ?_
  rw [List.filter_filter, List.filter_filter]
  have hb : ∀ x c d : Bool, ((x && c) && d) = ((d && c) && x) := by decide
  rw [List.filter_congr (l := data) (fun r _ =>
    hb (decide (0 ≤ r.ft) && decide (r.ft ≤ 23))
      (strLe start_date r.VALIDTIME && strLe r.VALIDTIME end_date)
      (decide (r.ID = point_id)))]

/-- Claim C4: for every station id occurring in the observation table, its
group is nonempty and its frequency record holds, for each of the three
signals, the number of group rows whose value meets the 25 threshold divided
by the total number of group rows. -/
theorem frequency_counts_threshold_rows (data : List ObsRow) (id : String)
    (h : id ∈ data.map (fun r => r.ID)) :
    groupOf data id ≠ []
    ∧ freqRecOf data id = some
        { ID := id
          obs_freq := ((groupOf data id).countP (fun r => hitsThreshold r.ObsGustSpd1h) : ℚ)
              / ((groupOf data id).length : ℚ)
          wt_freq := ((groupOf data id).countP (fun r => hitsThreshold r.wt_operation) : ℚ)
              / ((groupOf data id).length : ℚ)
          arc_freq := ((groupOf data id).countP (fun r => hitsThreshold r.arc_gust_pred) : ℚ)
              / ((groupOf data id).length : ℚ) } := by
  constructor
  · obtain ⟨r, hr, hid⟩ := List.mem_map.mp h
    exact List.ne_nil_of_mem (List.mem_filter.mpr ⟨hr, by simp [hid]⟩)
  · rw [freqRecOf_eq, if_pos h]
    simp [mkFreqRec, calc_freq, List.countP_eq_length_filter]

/-- Witness for C4: station S has ten rows of which exactly three reach an
observed gust of 25, none reach 25 on wt_operation, and all ten on
arc_gust_pred; its record is (3/10, 0, 1). -/
theorem frequency_counts_threshold_rows_witness :
    "S" ∈ data10.map (fun r => r.ID)
    ∧ freqRecOf data10 "S" = some ⟨"S", 3/10, 0, 1⟩ := by
  constructor
  · decide
  · have h := (frequency_counts_threshold_rows data10 "S" (by decide)).2
    have h1 : (groupOf data10 "S").countP (fun r => hitsThreshold r.ObsGustSpd1h) = 3 := by decide
    have h2 : (groupOf data10 "S").countP (fun r => hitsThreshold r.wt_operation) = 0 := by decide
    have h3 : (groupOf data10 "S").countP (fun r => hitsThreshold r.arc_gust_pred) = 10 := by decide
    have h4 : (groupOf data10 "S").length = 10 := by decide
    rw [h, h1, h2, h3, h4]
    norm_num

/-- Counterexample for C8 as stated: station A has one valid row (gust 30)
and one row with a missing gust.  The code computes obs_freq 1/2 — the
malformed row is counted in the denominator — while the claim, which
excludes it from both counts, predicts 1/1 = 1. -/
theorem malformed_row_counted_in_denominator :
    (freqRecOf dataC8 "A").map FreqRec.obs_freq = some (1/2)
    ∧ ((dataC8.countP (fun r => hitsThreshold r.ObsGustSpd1h) : ℚ)
        / (dataC8.countP (fun r => r.ObsGustSpd1h.isSome) : ℚ)) = 1
    ∧ (1/2 : ℚ) ≠ 1 := by
  refine ⟨?_, ?_, by norm_num⟩
  · have h := freqRecOf_eq dataC8 "A"
    rw [if_pos (by decide)] at h
    have hf : ((groupOf dataC8 "A").filter (fun r => hitsThreshold r.ObsGustSpd1h)).length = 1 := by
      decide
    have h4 : (groupOf dataC8 "A").length = 2 := by decide
    have hval : (mkFreqRec dataC8 "A").obs_freq = 1/2 := by
      show calc_freq (groupOf dataC8 "A") ObsRow.ObsGustSpd1h = 1/2
      unfold calc_freq
      rw [hf, h4]
      norm_num
    rw [h]
    simp [hval]
  · have h1 : dataC8.countP (fun r => hitsThreshold r.ObsGustSpd1h) = 1 := by decide
    have h2 : dataC8.countP (fun r => r.ObsGustSpd1h.isSome) = 1 := by decide
    rw [h1, h2]
    norm_num

/-- Claim C8 (amended): a row whose gust field is missing is excluded from
the threshold-crossing count of its station but still counted in that
row count of that station (the denominator), and every other station frequency
record is unchanged by its presence — aggregation is never aborted. -/
theorem malformed_row_excluded_from_numerator (data : List ObsRow) (bad : ObsRow)
    (hbad : bad.ObsGustSpd1h = none) :
    (∀ id, id ≠ bad.ID → freqRecOf (data ++ [bad]) id = freqRecOf data id)
    ∧ (groupOf (data ++ [bad]) bad.ID).length = (groupOf data bad.ID).length + 1
    ∧ (groupOf (data ++ [bad]) bad.ID).countP (fun r => hitsThreshold r.ObsGustSpd1h)
        = (groupOf data bad.ID).countP (fun r => hitsThreshold r.ObsGustSpd1h) := by
  refine ⟨?_, ?_, ?_⟩
  · intro id hne
    rw [freqRecOf_eq, freqRecOf_eq]
    have hmem : id ∈ (data ++ [bad]).map (fun r => r.ID) ↔ id ∈ data.map (fun r => r.ID) := by
      simp [List.map_append, List.mem_append, Ne.symm hne, hne]
    have hgrp : groupOf (data ++ [bad]) id = groupOf data id := groupOf_append_other data bad hne
    have hrec : mkFreqRec (data ++ [bad]) id = mkFreqRec data id := by
      simp [mkFreqRec, hgrp]
    by_cases h : id ∈ data.map (fun r => r.ID)
    · rw [if_pos (hmem.mpr h), if_pos h, hrec]
    · rw [if_neg (fun hm => h (hmem.mp hm)), if_neg h]
  · rw [groupOf_append_self]
    simp
  · rw [groupOf_append_self, List.countP_append]
    simp [hitsThreshold, hbad]

/-- Witness for C8 at concrete inputs: appending a missing-gust row for
station A to a two-station table leaves the record of station B unchanged, grows the row count of A by one and leaves the threshold count of A unchanged. -/
theorem malformed_row_excluded_from_numerator_witness :
    badRowC8.ObsGustSpd1h = none
    ∧ freqRecOf (dataC8w ++ [badRowC8]) "B" = freqRecOf dataC8w "B"
    ∧ (groupOf (dataC8w ++ [badRowC8]) badRowC8.ID).length
        = (groupOf dataC8w badRowC8.ID).length + 1
    ∧ (groupOf (dataC8w ++ [badRowC8]) badRowC8.ID).countP
          (fun r => hitsThreshold r.ObsGustSpd1h)
        = (groupOf dataC8w badRowC8.ID).countP (fun r => hitsThreshold r.ObsGustSpd1h) :=
  ⟨rfl,
   (malformed_row_excluded_from_numerator dataC8w badRowC8 rfl).1 "B" (by decide),
   (malformed_row_excluded_from_numerator dataC8w badRowC8 rfl).2.1,
   (malformed_row_excluded_from_numerator dataC8w badRowC8 rfl).2.2⟩

/-- Counterexample for C3 as stated: station X has a frequency record
(obs_freq 1/2) and no location row at all, yet it is not dropped — it shows
up in the HIGH marker group. -/
theorem orphan_station_in_marker_group :
    "X" ∈ (high_freq_df (plot_df freqsC3 [])).map PlotRow.ID := by
  have h : plot_df freqsC3 [] = [⟨"X", 1/2, 0, 0, none, none⟩] := rfl
  rw [h]
  simp only [high_freq_df, List.mem_map, List.mem_filter, decide_eq_true_eq]
  exact ⟨_, ⟨List.mem_singleton.mpr rfl, by norm_num⟩, rfl⟩

/-- Claim C3 (amended): a station with a frequency record but no matching
location row is kept by the left join with missing (none) coordinates and
lands in the HIGH marker group when its obs_freq reaches 0.004 and in the
LOW group otherwise; the join itself never fails. -/
theorem orphan_station_kept_with_null_coords (freqs : List FreqRec) (locs : List LocRow)
    (f : FreqRec) (hf : f ∈ freqs) (horph : ∀ l ∈ locs, l.ID ≠ f.ID) :
    ∃ r ∈ plot_df freqs locs, r.ID = f.ID ∧ r.LATD = none ∧ r.LOND = none
      ∧ (r ∈ high_freq_df (plot_df freqs locs) ∨ r ∈ low_freq_df (plot_df freqs locs)) := by
  have hfil : locs.filter (fun l => decide (l.ID = f.ID)) = [] := by
    rw [List.filter_eq_nil_iff]
    intro l hl
    simp [horph l hl]
  have hr : (⟨f.ID, f.obs_freq, f.wt_freq, f.arc_freq, none, none⟩ : PlotRow)
      ∈ plot_df freqs locs := by
    apply List.mem_flatMap.mpr
    refine ⟨f, hf, ?_⟩
    rw [hfil]
    exact List.mem_singleton.mpr rfl
  refine ⟨⟨f.ID, f.obs_freq, f.wt_freq, f.arc_freq, none, none⟩, hr, rfl, rfl, rfl, ?_⟩
  by_cases h : (4 : ℚ)/1000 ≤ f.obs_freq
  · exact Or.inl (List.mem_filter.mpr ⟨hr, by simp [h]⟩)
  · exact Or.inr (List.mem_filter.mpr ⟨hr, by simp [lt_of_not_le h]⟩)

/-- Witness for C3 at concrete inputs: station Y has a record and the only
location row is for station Z. -/
theorem orphan_station_kept_witness :
    (⟨"Y", 0, 0, 0⟩ : FreqRec) ∈ [(⟨"Y", 0, 0, 0⟩ : FreqRec)]
    ∧ (∀ l ∈ [(⟨"Z", 1, 2⟩ : LocRow)], l.ID ≠ FreqRec.ID ⟨"Y", 0, 0, 0⟩)
    ∧ ∃ r ∈ plot_df [⟨"Y", 0, 0, 0⟩] [⟨"Z", 1, 2⟩],
        r.ID = FreqRec.ID ⟨"Y", 0, 0, 0⟩ ∧ r.LATD = none ∧ r.LOND = none
        ∧ (r ∈ high_freq_df (plot_df [⟨"Y", 0, 0, 0⟩] [⟨"Z", 1, 2⟩])
           ∨ r ∈ low_freq_df (plot_df [⟨"Y", 0, 0, 0⟩] [⟨"Z", 1, 2⟩])) :=
  ⟨by decide, by decide,
   orphan_station_kept_with_null_coords [⟨"Y", 0, 0, 0⟩] [⟨"Z", 1, 2⟩] ⟨"Y", 0, 0, 0⟩
     (by decide) (by decide)⟩

end Windtopo
